import Mathlib

/-!
Verification of the `JournalReader` component of the jourlog package
(`jourread` source file, package `jourlog`).

The reader is a thin stateful orchestration layer over the systemd journal
store (`sdjournal.Journal`).  We embed the reader state (`cursor`, `limit`,
`retrieved` — the store handle itself is external) and every reader
operation as a pure Lean function.  The store is abstracted: each operation
that consults the store receives the store's response for the call(s) it
would issue (`Except String _`, mirroring Go's `error` results, with the
error text as the string), and returns, besides its Go result and the new
reader state, the list of store calls it issued (`StoreOp`), so that
"no store operation was issued" is expressible.  Go `int` is modelled as
`Int` (the claims are far from the 2^63 wrap), `time.Time` as its unix-nano
instant (`Int`), and the journal entry's field map as an association list.
Error values are the exact strings the Go code builds with `fmt.Errorf`.
-/

namespace Jourlog

/-- A journal entry as returned by the store's `GetEntry`: a field map. -/
structure JournalEntry where
  fields : List (String × String)
deriving DecidableEq, Repr

/-- A call issued to the underlying journal store (the `j.j` handle). -/
inductive StoreOp where
  | addMatch (expr : String)
  | flushMatches
  | next
  | getEntry
  | getCursor
  | seekHead
  | seekTail
  | seekCursor (cursor : String)
deriving DecidableEq, Repr

/-- The reader state: the fields of Go's `JournalReader` struct other than
the store handle.  `cursor` is the position token of the last entry read
back, `limit` the retrieval cap (0 = unbounded), `retrieved` the count of
entries retrieved so far. -/
structure JournalReader where
  cursor : String
  limit : Int
  retrieved : Int
deriving DecidableEq, Repr

/-- `NewJournalReader`, successful case: a fresh reader (`limit = 0`,
`retrieved = 0`, `cursor` unset). -/
def NewJournalReader : JournalReader :=
  { cursor := "", limit := 0, retrieved := 0 }

/-- `SetLimit`: clamps a negative argument to 0, stores the result. -/
def SetLimit (j : JournalReader) (limit : Int) : JournalReader :=
  if limit < 0 then { j with limit := 0 } else { j with limit := limit }

/-- Shape of a filter operation's outcome: the Go `error` result together
with the store calls issued.  Filter operations do not touch the reader's
own fields, only the store's match set. -/
abbrev FilterResult := Except String Unit × List StoreOp

/-- `SetService`: submits `__SYSTEMD_SERVICE=<service>` to the store. -/
def SetService (_j : JournalReader) (service : String)
    (res : Except String Unit) : FilterResult :=
  match res with
  | .error e => (.error ("failed to add service match: " ++ e),
      [.addMatch ("__SYSTEMD_SERVICE=" ++ service)])
  | .ok _ => (.ok (), [.addMatch ("__SYSTEMD_SERVICE=" ++ service)])

/-- `SetUnit`: submits `_SYSTEMD_UNIT=<unit>` to the store. -/
def SetUnit (_j : JournalReader) (unit : String)
    (res : Except String Unit) : FilterResult :=
  match res with
  | .error e => (.error ("failed to add unit match: " ++ e),
      [.addMatch ("_SYSTEMD_UNIT=" ++ unit)])
  | .ok _ => (.ok (), [.addMatch ("_SYSTEMD_UNIT=" ++ unit)])

/-- `SetSince`: converts the instant to microseconds (`UnixNano() / 1000`,
Go division truncating toward zero, i.e. `Int.tdiv`) and submits
`_REALTIME_TIMESTAMP>=<micros>`. -/
def SetSince (_j : JournalReader) (since : Int)
    (res : Except String Unit) : FilterResult :=
  let timestamp := Int.tdiv since 1000
  match res with
  | .error e => (.error ("failed to add time match: " ++ e),
      [.addMatch ("_REALTIME_TIMESTAMP>=" ++ toString timestamp)])
  | .ok _ => (.ok (), [.addMatch ("_REALTIME_TIMESTAMP>=" ++ toString timestamp)])

/-- `SetUntil`: like `SetSince` with `_REALTIME_TIMESTAMP<=<micros>`. -/
def SetUntil (_j : JournalReader) (until_ : Int)
    (res : Except String Unit) : FilterResult :=
  let timestamp := Int.tdiv until_ 1000
  match res with
  | .error e => (.error ("failed to add time match: " ++ e),
      [.addMatch ("_REALTIME_TIMESTAMP<=" ++ toString timestamp)])
  | .ok _ => (.ok (), [.addMatch ("_REALTIME_TIMESTAMP<=" ++ toString timestamp)])

/-- `SetPriority`: rejects a priority outside `[0, 7]` before touching the
store; otherwise submits `PRIORITY<=<priority>`. -/
def SetPriority (_j : JournalReader) (priority : Int)
    (res : Except String Unit) : FilterResult :=
  if priority < 0 ∨ priority > 7 then
    (.error ("invalid priority level: " ++ toString priority ++ " (must be 0-7)"), [])
  else
    match res with
    | .error e => (.error ("failed to add priority match: " ++ e),
        [.addMatch ("PRIORITY<=" ++ toString priority)])
    | .ok _ => (.ok (), [.addMatch ("PRIORITY<=" ++ toString priority)])

/-- `AddFilter`: submits the caller's raw match string verbatim. -/
def AddFilter (_j : JournalReader) (filter : String)
    (res : Except String Unit) : FilterResult :=
  match res with
  | .error e => (.error ("failed to add filter match: " ++ e), [.addMatch filter])
  | .ok _ => (.ok (), [.addMatch filter])

/-- `SetHostname`: submits `_HOSTNAME=<hostname>` to the store. -/
def SetHostname (_j : JournalReader) (hostname : String)
    (res : Except String Unit) : FilterResult :=
  match res with
  | .error e => (.error ("failed to add hostname match: " ++ e),
      [.addMatch ("_HOSTNAME=" ++ hostname)])
  | .ok _ => (.ok (), [.addMatch ("_HOSTNAME=" ++ hostname)])

/-- `SetExecutable`: submits `_EXE=<executable>` to the store. -/
def SetExecutable (_j : JournalReader) (executable : String)
    (res : Except String Unit) : FilterResult :=
  match res with
  | .error e => (.error ("failed to add executable match: " ++ e),
      [.addMatch ("_EXE=" ++ executable)])
  | .ok _ => (.ok (), [.addMatch ("_EXE=" ++ executable)])

/-- `SetMessageFilter`: submits `MESSAGE=<text>` to the store. -/
def SetMessageFilter (_j : JournalReader) (text : String)
    (res : Except String Unit) : FilterResult :=
  match res with
  | .error e => (.error ("failed to add message filter: " ++ e),
      [.addMatch ("MESSAGE=" ++ text)])
  | .ok _ => (.ok (), [.addMatch ("MESSAGE=" ++ text)])

/-- `ClearFilters`: one `FlushMatches` call, reader fields untouched. -/
def ClearFilters (_j : JournalReader) : List StoreOp :=
  [.flushMatches]

/-- `LastHour`: `SetSince(time.Now().Add(-time.Hour))`; `now` is the
current instant in unix nanoseconds, one hour is 3600·10^9 ns. -/
def LastHour (j : JournalReader) (now : Int)
    (res : Except String Unit) : FilterResult :=
  SetSince j (now - 3600000000000) res

/-- `LastDay`: `SetSince(time.Now().Add(-24 * time.Hour))`. -/
def LastDay (j : JournalReader) (now : Int)
    (res : Except String Unit) : FilterResult :=
  SetSince j (now - 86400000000000) res

/-- `LastWeek`: `SetSince(time.Now().Add(-7 * 24 * time.Hour))`. -/
def LastWeek (j : JournalReader) (now : Int)
    (res : Except String Unit) : FilterResult :=
  SetSince j (now - 604800000000000) res

/-- `Today`: computes local midnight of the current day with `time.Date`
(a Go standard-library calendar computation, abstracted here as the input
`midnight`) and delegates to `SetSince` with it. -/
def Today (j : JournalReader) (midnight : Int)
    (res : Except String Unit) : FilterResult :=
  SetSince j midnight res

/-- The store's responses to the (up to three) calls a single `Retrieve`
issues: `Next() (uint64, error)`, `GetEntry`, `GetCursor`. -/
structure RetrieveResponses where
  next : Except String Nat
  getEntry : Except String JournalEntry
  getCursor : Except String String
deriving Repr

/-- `Retrieve`: the pull primitive.  Checks the cap, advances the store,
reads the entry, reads back the cursor token (assigning `cursor` and
incrementing `retrieved`), then extracts the `MESSAGE` field.  The Go
debug loop printing all fields is I/O with no effect on state and is not
modelled. -/
def Retrieve (j : JournalReader) (r : RetrieveResponses) :
    Except String String × JournalReader × List StoreOp :=
  if j.limit > 0 ∧ j.retrieved ≥ j.limit then
    (.error ("reached limit of " ++ toString j.limit ++ " entries"), j, [])
  else
    match r.next with
    | .error e => (.error ("failed to advance to next entry: " ++ e), j, [.next])
    | .ok n =>
      if n = 0 then
        (.error "no more entries", j, [.next])
      else
        match r.getEntry with
        | .error e => (.error ("failed to get entry: " ++ e), j, [.next, .getEntry])
        | .ok log =>
          match r.getCursor with
          | .error e =>
              (.error ("failed to get cursor: " ++ e), j, [.next, .getEntry, .getCursor])
          | .ok cursor =>
            let j := { j with cursor := cursor, retrieved := j.retrieved + 1 }
            match log.fields.lookup "MESSAGE" with
            | none => (.error "entry has no MESSAGE field", j, [.next, .getEntry, .getCursor])
            | some message => (.ok message, j, [.next, .getEntry, .getCursor])

/-- `ResetCounter`: sets `retrieved` to 0, nothing else. -/
def ResetCounter (j : JournalReader) : JournalReader :=
  { j with retrieved := 0 }

/-- `SeekHead`: asks the store to seek to the head; on success resets
`retrieved` to 0, on store failure returns the wrapped error unchanged. -/
def SeekHead (j : JournalReader) (res : Except String Unit) :
    Except String Unit × JournalReader × List StoreOp :=
  match res with
  | .error e => (.error ("failed to seek to head: " ++ e), j, [.seekHead])
  | .ok _ => (.ok (), { j with retrieved := 0 }, [.seekHead])

/-- `SeekTail`: like `SeekHead` for the tail of the journal. -/
def SeekTail (j : JournalReader) (res : Except String Unit) :
    Except String Unit × JournalReader × List StoreOp :=
  match res with
  | .error e => (.error ("failed to seek to tail: " ++ e), j, [.seekTail])
  | .ok _ => (.ok (), { j with retrieved := 0 }, [.seekTail])

/-- `SeekCursor`: seeks to a previously obtained cursor token. -/
def SeekCursor (j : JournalReader) (cursor : String) (res : Except String Unit) :
    Except String Unit × JournalReader × List StoreOp :=
  match res with
  | .error e => (.error ("failed to seek to cursor: " ++ e), j, [.seekCursor cursor])
  | .ok _ => (.ok (), { j with retrieved := 0 }, [.seekCursor cursor])

/-! ### Trace model

A reachable reader state is one produced from `NewJournalReader` by a
sequence of operations; each operation carries the store responses it
consumed, so a trace fixes the whole interaction. -/

/-- One reader operation together with the store's responses to it. -/
inductive ROp where
  | setLimit (n : Int)
  | setService (s : String) (res : Except String Unit)
  | setUnit (s : String) (res : Except String Unit)
  | setSince (t : Int) (res : Except String Unit)
  | setUntil (t : Int) (res : Except String Unit)
  | setPriority (p : Int) (res : Except String Unit)
  | addFilter (s : String) (res : Except String Unit)
  | setHostname (s : String) (res : Except String Unit)
  | setExecutable (s : String) (res : Except String Unit)
  | setMessageFilter (s : String) (res : Except String Unit)
  | clearFilters
  | lastHour (now : Int) (res : Except String Unit)
  | lastDay (now : Int) (res : Except String Unit)
  | lastWeek (now : Int) (res : Except String Unit)
  | today (midnight : Int) (res : Except String Unit)
  | retrieve (r : RetrieveResponses)
  | resetCounter
  | seekHead (res : Except String Unit)
  | seekTail (res : Except String Unit)
  | seekCursor (tok : String) (res : Except String Unit)

/-- The reader state after one operation.  Filter operations only mutate
the store's match set, never the reader's own fields. -/
def step (j : JournalReader) : ROp → JournalReader
  | .setLimit n => SetLimit j n
  | .setService _ _ => j
  | .setUnit _ _ => j
  | .setSince _ _ => j
  | .setUntil _ _ => j
  | .setPriority _ _ => j
  | .addFilter _ _ => j
  | .setHostname _ _ => j
  | .setExecutable _ _ => j
  | .setMessageFilter _ _ => j
  | .clearFilters => j
  | .lastHour _ _ => j
  | .lastDay _ _ => j
  | .lastWeek _ _ => j
  | .today _ _ => j
  | .retrieve r => (Retrieve j r).2.1
  | .resetCounter => ResetCounter j
  | .seekHead res => (SeekHead j res).2.1
  | .seekTail res => (SeekTail j res).2.1
  | .seekCursor tok res => (SeekCursor j tok res).2.1

/-- The store calls one operation issues from state `j`. -/
def stepOps (j : JournalReader) : ROp → List StoreOp
  | .setLimit _ => []
  | .setService s res => (SetService j s res).2
  | .setUnit s res => (SetUnit j s res).2
  | .setSince t res => (SetSince j t res).2
  | .setUntil t res => (SetUntil j t res).2
  | .setPriority p res => (SetPriority j p res).2
  | .addFilter s res => (AddFilter j s res).2
  | .setHostname s res => (SetHostname j s res).2
  | .setExecutable s res => (SetExecutable j s res).2
  | .setMessageFilter s res => (SetMessageFilter j s res).2
  | .clearFilters => ClearFilters j
  | .lastHour now res => (LastHour j now res).2
  | .lastDay now res => (LastDay j now res).2
  | .lastWeek now res => (LastWeek j now res).2
  | .today m res => (Today j m res).2
  | .retrieve r => (Retrieve j r).2.2
  | .resetCounter => []
  | .seekHead res => (SeekHead j res).2.2
  | .seekTail res => (SeekTail j res).2.2
  | .seekCursor tok res => (SeekCursor j tok res).2.2

/-- The reader state after a whole trace. -/
def run (j : JournalReader) : List ROp → JournalReader
  | [] => j
  | op :: ops => run (step j op) ops

/-- Runs a list of `Retrieve` calls, `some` final state when every call
succeeded, `none` as soon as one fails. -/
def runRetrieves (j : JournalReader) : List RetrieveResponses → Option JournalReader
  | [] => some j
  | r :: rs =>
    match Retrieve j r with
    | (.ok _, j1, _) => runRetrieves j1 rs
    | (.error _, _, _) => none

/-- A store-response script under which `Retrieve` succeeds: one entry
advanced, an entry whose `MESSAGE` field is `"m"`, cursor token `"c"`. -/
def okResponses : RetrieveResponses :=
  { next := .ok 1, getEntry := .ok ⟨[("MESSAGE", "m")]⟩, getCursor := .ok "c" }

/-- A store-response script whose entry lacks the `MESSAGE` field. -/
def noMessageResponses : RetrieveResponses :=
  { next := .ok 1, getEntry := .ok ⟨[("FOO", "bar")]⟩, getCursor := .ok "c1" }

/-- A store-response script for an exhausted store: `Next` advances zero
entries. -/
def exhaustedResponses : RetrieveResponses :=
  { next := .ok 0, getEntry := .ok ⟨[]⟩, getCursor := .ok "" }

/-! ### Helper lemmas -/

/-- A successful `Retrieve` keeps `limit` and increments `retrieved`. -/
theorem Retrieve_ok_state (j : JournalReader) (r : RetrieveResponses)
    (m : String) (j' : JournalReader) (o : List StoreOp)
    (h : Retrieve j r = (.ok m, j', o)) :
    j'.limit = j.limit ∧ j'.retrieved = j.retrieved + 1 := by
  unfold Retrieve at h
  repeat' split at h
  all_goals simp_all
  all_goals simp [← h.2.1]

/-- After a run of `Retrieve` calls that all succeeded, `limit` is
untouched and `retrieved` grew by the number of calls. -/
theorem runRetrieves_state (rs : List RetrieveResponses) :
    ∀ j j', runRetrieves j rs = some j' →
      j'.limit = j.limit ∧ j'.retrieved = j.retrieved + rs.length := by
  induction rs with
  | nil => intro j j' h; simp [runRetrieves] at h; simp [← h]
  | cons r rs ih =>
    intro j j' h
    unfold runRetrieves at h
    split at h
    · next m j1 o heq =>
      obtain ⟨h1, h2⟩ := Retrieve_ok_state j r m j1 o heq
      obtain ⟨h3, h4⟩ := ih j1 j' h
      constructor
      · rw [h3, h1]
      · rw [h4, h2]; simp [List.length_cons]; ring
    · exact absurd h (by simp)

/-- A `Retrieve` call that starts at an already-met positive cap fails
with the limit error, leaves the state alone and issues no store call. -/
theorem Retrieve_at_limit (j : JournalReader) (r : RetrieveResponses)
    (hpos : j.limit > 0) (hge : j.retrieved ≥ j.limit) :
    Retrieve j r =
      (.error ("reached limit of " ++ toString j.limit ++ " entries"), j, []) := by
  unfold Retrieve
  rw [if_pos ⟨hpos, hge⟩]

/-- `Retrieve` either leaves the reader untouched, or (past the cap
check) assigns some cursor token and increments `retrieved` by one. -/
theorem Retrieve_state_cases (j : JournalReader) (r : RetrieveResponses) :
    (Retrieve j r).2.1 = j ∨
    (¬(j.limit > 0 ∧ j.retrieved ≥ j.limit) ∧
      ∃ c, (Retrieve j r).2.1 = { j with cursor := c, retrieved := j.retrieved + 1 }) := by
  unfold Retrieve
  repeat' split
  all_goals simp_all

/-- Go's `fmt.Errorf("...: %w", err)` wrapping of a store result. -/
def wrapFilterError (pre : String) : Except String Unit → Except String Unit
  | .error e => .error (pre ++ e)
  | .ok _ => .ok ()

/-! ### Claims -/

/-- C2: for all `limit = n > 0`, after exactly `n` successful `Retrieve`
calls the `(n+1)`th call fails with the LimitReached condition before
touching the store — the issued-store-call list is empty, so the store
position is not advanced — and `retrieved` equals `n` at that point. -/
theorem C2_cap_discipline (n : Nat) (hn : 0 < n)
    (rs : List RetrieveResponses) (hlen : rs.length = n) (j' : JournalReader)
    (hrun : runRetrieves (SetLimit NewJournalReader (n : Int)) rs = some j')
    (r : RetrieveResponses) :
    j'.retrieved = (n : Int) ∧
    Retrieve j' r =
      (.error ("reached limit of " ++ toString (n : Int) ++ " entries"), j', []) := by
  obtain ⟨h1, h2⟩ := runRetrieves_state rs _ j' hrun
  have hstart : SetLimit NewJournalReader (n : Int) =
      { cursor := "", limit := (n : Int), retrieved := 0 } := by
    unfold SetLimit NewJournalReader
    rw [if_neg (by exact not_lt.mpr (Int.natCast_nonneg n))]
  rw [hstart] at h1 h2
  have hretr : j'.retrieved = (n : Int) := by
    rw [h2, hlen]; ring
  have hlim : j'.limit = (n : Int) := h1
  refine ⟨hretr, ?_⟩
  have hpos : j'.limit > 0 := by
    rw [hlim]; exact_mod_cast hn
  have := Retrieve_at_limit j' r hpos (by rw [hretr, hlim])
  rw [hlim] at this
  exact this

/-- C2 witness: with `limit = 1`, one successful retrieval, then the
second call fails with the limit error without store calls. -/
theorem C2_cap_discipline_witness :
    0 < 1 ∧ [okResponses].length = 1 ∧
    runRetrieves (SetLimit NewJournalReader ((1 : Nat) : Int)) [okResponses] =
      some { cursor := "c", limit := 1, retrieved := 1 } ∧
    (({ cursor := "c", limit := 1, retrieved := 1 } : JournalReader).retrieved =
        ((1 : Nat) : Int) ∧
      Retrieve { cursor := "c", limit := 1, retrieved := 1 } okResponses =
        (.error ("reached limit of " ++ toString ((1 : Nat) : Int) ++ " entries"),
          { cursor := "c", limit := 1, retrieved := 1 }, [])) :=
  ⟨by decide, rfl, rfl,
    C2_cap_discipline 1 (by decide) [okResponses] rfl
      { cursor := "c", limit := 1, retrieved := 1 } rfl okResponses⟩

/-- C9: `SetLimit(n)` stores `n` when `n ≥ 0` and `0` when `n < 0`,
never fails (it is a total state update), leaves `cursor` and
`retrieved` alone, and issues no store call.  The new limit is only
consulted by the next `Retrieve` (which reads `limit` afresh); nothing
is retroactively checked against `retrieved`. -/
theorem C9_setLimit_clamps (j : JournalReader) (n : Int) :
    SetLimit j n =
      { cursor := j.cursor, limit := if n < 0 then 0 else n,
        retrieved := j.retrieved } ∧
    stepOps j (ROp.setLimit n) = [] := by
  constructor
  · unfold SetLimit; split <;> rfl
  · rfl

/-- C8: each filter operation builds exactly the documented match string,
submits it with exactly one `AddMatch` call, and returns success or the
wrapped store rejection; `AddFilter` passes its string through verbatim,
and the time filters use the instant in microseconds since the epoch. -/
theorem C8_filter_match_strings (j : JournalReader) (name : String) (t : Int)
    (res : Except String Unit) :
    SetService j name res = (wrapFilterError "failed to add service match: " res,
      [.addMatch ("__SYSTEMD_SERVICE=" ++ name)]) ∧
    SetUnit j name res = (wrapFilterError "failed to add unit match: " res,
      [.addMatch ("_SYSTEMD_UNIT=" ++ name)]) ∧
    SetHostname j name res = (wrapFilterError "failed to add hostname match: " res,
      [.addMatch ("_HOSTNAME=" ++ name)]) ∧
    SetExecutable j name res = (wrapFilterError "failed to add executable match: " res,
      [.addMatch ("_EXE=" ++ name)]) ∧
    SetMessageFilter j name res = (wrapFilterError "failed to add message filter: " res,
      [.addMatch ("MESSAGE=" ++ name)]) ∧
    SetSince j t res = (wrapFilterError "failed to add time match: " res,
      [.addMatch ("_REALTIME_TIMESTAMP>=" ++ toString (Int.tdiv t 1000))]) ∧
    SetUntil j t res = (wrapFilterError "failed to add time match: " res,
      [.addMatch ("_REALTIME_TIMESTAMP<=" ++ toString (Int.tdiv t 1000))]) ∧
    AddFilter j name res = (wrapFilterError "failed to add filter match: " res,
      [.addMatch name]) := by
  cases res <;>
    simp [SetService, SetUnit, SetHostname, SetExecutable, SetMessageFilter,
      SetSince, SetUntil, AddFilter, wrapFilterError]

/-- C6: the time-window shortcuts are pure sugar over `SetSince`: each
computes one timestamp (now minus one hour, 24 hours, 7 days, or the
local midnight computed by the calendar library) and delegates to
`SetSince` with it; each submits exactly the one `SetSince` match (no
other filter) and fails exactly when `SetSince` fails. -/
theorem C6_shortcuts_are_sugar (j : JournalReader) (now midnight : Int)
    (res : Except String Unit) :
    LastHour j now res = SetSince j (now - 3600000000000) res ∧
    LastDay j now res = SetSince j (now - 86400000000000) res ∧
    LastWeek j now res = SetSince j (now - 604800000000000) res ∧
    Today j midnight res = SetSince j midnight res ∧
    (LastHour j now res).2 = [.addMatch ("_REALTIME_TIMESTAMP>=" ++
      toString (Int.tdiv (now - 3600000000000) 1000))] ∧
    (LastDay j now res).2 = [.addMatch ("_REALTIME_TIMESTAMP>=" ++
      toString (Int.tdiv (now - 86400000000000) 1000))] ∧
    (LastWeek j now res).2 = [.addMatch ("_REALTIME_TIMESTAMP>=" ++
      toString (Int.tdiv (now - 604800000000000) 1000))] ∧
    (Today j midnight res).2 = [.addMatch ("_REALTIME_TIMESTAMP>=" ++
      toString (Int.tdiv midnight 1000))] ∧
    ((LastHour j now res).1 = (SetSince j (now - 3600000000000) res).1 ∧
      (LastDay j now res).1 = (SetSince j (now - 86400000000000) res).1 ∧
      (LastWeek j now res).1 = (SetSince j (now - 604800000000000) res).1 ∧
      (Today j midnight res).1 = (SetSince j midnight res).1) := by
  cases res <;> simp [LastHour, LastDay, LastWeek, Today, SetSince]

/-- C4: `SetPriority(p)` with `p` outside `[0, 7]` fails with the
validation error and issues no store call; with `p` in `[0, 7]` it
submits exactly the match `PRIORITY<=<p>` and succeeds whenever the
store accepts the match. -/
theorem C4_setPriority_validation (j : JournalReader) (p : Int)
    (res : Except String Unit) :
    ((p < 0 ∨ p > 7) →
      SetPriority j p res =
        (.error ("invalid priority level: " ++ toString p ++ " (must be 0-7)"), [])) ∧
    (0 ≤ p → p ≤ 7 →
      (SetPriority j p res).2 = [.addMatch ("PRIORITY<=" ++ toString p)] ∧
      (res = .ok () →
        SetPriority j p res = (.ok (), [.addMatch ("PRIORITY<=" ++ toString p)]))) := by
  constructor
  · intro h
    unfold SetPriority
    rw [if_pos h]
  · intro h0 h7
    unfold SetPriority
    rw [if_neg (by omega)]
    cases res <;> simp_all

/-- C4 witness: `SetPriority(-1)` fails without a store call and
`SetPriority(7)` submits `PRIORITY<=7` and succeeds on an accepting
store. -/
theorem C4_setPriority_validation_witness :
    (((-1 : Int) < 0 ∨ (-1 : Int) > 7) ∧
      SetPriority NewJournalReader (-1) (.ok ()) =
        (.error ("invalid priority level: " ++ toString (-1 : Int) ++
          " (must be 0-7)"), [])) ∧
    ((0 : Int) ≤ 7 ∧ (7 : Int) ≤ 7 ∧
      SetPriority NewJournalReader 7 (.ok ()) =
        (.ok (), [.addMatch ("PRIORITY<=" ++ toString (7 : Int))])) :=
  ⟨⟨by decide, (C4_setPriority_validation NewJournalReader (-1) (.ok ())).1 (by decide)⟩,
    by decide, by decide,
    ((C4_setPriority_validation NewJournalReader 7 (.ok ())).2
      (by decide) (by decide)).2 rfl⟩

/-- C5: every successful `SeekHead`/`SeekTail`/`SeekCursor` sets
`retrieved` to 0 regardless of its prior value; every failing one
returns the store's error (wrapped with the operation name) and leaves
the reader, `retrieved` included, exactly as before the call. -/
theorem C5_seek_resets_count (j : JournalReader) (tok : String)
    (res : Except String Unit) :
    (res = .ok () →
      SeekHead j res = (.ok (), { j with retrieved := 0 }, [.seekHead]) ∧
      SeekTail j res = (.ok (), { j with retrieved := 0 }, [.seekTail]) ∧
      SeekCursor j tok res = (.ok (), { j with retrieved := 0 }, [.seekCursor tok])) ∧
    (∀ e, res = .error e →
      SeekHead j res = (.error ("failed to seek to head: " ++ e), j, [.seekHead]) ∧
      SeekTail j res = (.error ("failed to seek to tail: " ++ e), j, [.seekTail]) ∧
      SeekCursor j tok res =
        (.error ("failed to seek to cursor: " ++ e), j, [.seekCursor tok])) := by
  constructor
  · rintro rfl
    exact ⟨rfl, rfl, rfl⟩
  · rintro e rfl
    exact ⟨rfl, rfl, rfl⟩

/-- C5 witness: a successful `SeekHead` resets `retrieved` from 5 to 0,
and a `SeekCursor` on a stale token returns the wrapped store error with
`retrieved` still 5. -/
theorem C5_seek_resets_count_witness :
    SeekHead { cursor := "x", limit := 0, retrieved := 5 } (.ok ()) =
      (.ok (), { cursor := "x", limit := 0, retrieved := 0 }, [.seekHead]) ∧
    SeekCursor { cursor := "x", limit := 0, retrieved := 5 } "stale-token"
        (.error "cursor not found") =
      (.error ("failed to seek to cursor: " ++ "cursor not found"),
        { cursor := "x", limit := 0, retrieved := 5 }, [.seekCursor "stale-token"]) :=
  ⟨((C5_seek_resets_count { cursor := "x", limit := 0, retrieved := 5 }
      "stale-token" (.ok ())).1 rfl).1,
    ((C5_seek_resets_count { cursor := "x", limit := 0, retrieved := 5 }
      "stale-token" (.error "cursor not found")).2 "cursor not found" rfl).2.2⟩

/-- C7: a store advance reporting zero entries makes `Retrieve` fail
with the Exhausted condition; with `limit = 2`, after two successful
retrievals the third call fails with the LimitReached condition without
any store call — whatever entries the store still has — and the two
error conditions are distinct. -/
theorem C7_exhausted_vs_limit :
    (∀ (j : JournalReader) (r : RetrieveResponses),
      ¬(j.limit > 0 ∧ j.retrieved ≥ j.limit) → r.next = .ok 0 →
      Retrieve j r = (.error "no more entries", j, [.next])) ∧
    (∀ (j1 j2 : JournalReader) (r1 r2 r3 : RetrieveResponses)
      (m1 m2 : String) (o1 o2 : List StoreOp),
      Retrieve (SetLimit NewJournalReader 2) r1 = (.ok m1, j1, o1) →
      Retrieve j1 r2 = (.ok m2, j2, o2) →
      Retrieve j2 r3 = (.error "reached limit of 2 entries", j2, [])) ∧
    "reached limit of 2 entries" ≠ "no more entries" := by
  refine ⟨?_, ?_, by decide⟩
  · intro j r hguard hnext
    unfold Retrieve
    rw [if_neg hguard, hnext]
    simp
  · intro j1 j2 r1 r2 r3 m1 m2 o1 o2 h1 h2
    obtain ⟨hL1, hR1⟩ := Retrieve_ok_state _ r1 m1 j1 o1 h1
    obtain ⟨hL2, hR2⟩ := Retrieve_ok_state _ r2 m2 j2 o2 h2
    have hlim : j2.limit = 2 := by
      rw [hL2, hL1]; rfl
    have hretr : j2.retrieved = 2 := by
      rw [hR2, hR1]; rfl
    have hs : "reached limit of " ++ toString (2 : Int) ++ " entries" =
        "reached limit of 2 entries" := rfl
    rw [← hs, ← hlim]
    exact Retrieve_at_limit j2 r3 (by rw [hlim]; decide) (by rw [hretr, hlim])

/-- C7 witness: an exhausted store yields the Exhausted error on a fresh
reader, and with `limit = 2` and `retrieved = 2` the next call yields
the LimitReached error with no store call. -/
theorem C7_exhausted_vs_limit_witness :
    (¬(NewJournalReader.limit > 0 ∧
        NewJournalReader.retrieved ≥ NewJournalReader.limit) ∧
      Retrieve NewJournalReader exhaustedResponses =
        (.error "no more entries", NewJournalReader, [.next])) ∧
    Retrieve { cursor := "c", limit := 2, retrieved := 2 } okResponses =
      (.error "reached limit of 2 entries",
        { cursor := "c", limit := 2, retrieved := 2 }, []) :=
  ⟨⟨by decide,
      C7_exhausted_vs_limit.1 NewJournalReader exhaustedResponses (by decide) rfl⟩,
    C7_exhausted_vs_limit.2.1 { cursor := "c", limit := 2, retrieved := 1 }
      { cursor := "c", limit := 2, retrieved := 2 } okResponses okResponses
      okResponses "m" "m" [.next, .getEntry, .getCursor]
      [.next, .getEntry, .getCursor] rfl rfl⟩

/-- C10: a `Retrieve` call that fails before the cursor token is read
back — at the limit check, at the store advance (store error or zero
entries advanced), or while reading the entry's field set — returns an
error and leaves the reader's `cursor` and `retrieved` (the whole
reader state) unchanged. -/
theorem C10_early_failure_leaves_state (j : JournalReader) (r : RetrieveResponses)
    (h : (j.limit > 0 ∧ j.retrieved ≥ j.limit) ∨ (∃ e, r.next = .error e) ∨
      r.next = .ok 0 ∨ (∃ e, r.getEntry = .error e)) :
    (Retrieve j r).2.1 = j ∧ ∃ e, (Retrieve j r).1 = .error e := by
  unfold Retrieve
  repeat' split
  all_goals simp_all

/-- C10 witness: on a store with no further entries, `Retrieve` fails
and the fresh reader is unchanged. -/
theorem C10_early_failure_leaves_state_witness :
    exhaustedResponses.next = .ok 0 ∧
    ((Retrieve NewJournalReader exhaustedResponses).2.1 = NewJournalReader ∧
      ∃ e, (Retrieve NewJournalReader exhaustedResponses).1 = .error e) :=
  ⟨rfl, C10_early_failure_leaves_state NewJournalReader exhaustedResponses
    (Or.inr (Or.inr (Or.inl rfl)))⟩

/-- C1 counterexample: on a fresh reader, retrieving an entry whose
`MESSAGE` field is absent does fail with the MalformedEntry error, yet
both `retrieved` and `cursor` change: the code assigns the cursor token
and increments the counter before it looks the message field up. -/
theorem C1_counterexample :
    (Retrieve NewJournalReader noMessageResponses).1 =
      .error "entry has no MESSAGE field" ∧
    (Retrieve NewJournalReader noMessageResponses).2.1.retrieved ≠
      NewJournalReader.retrieved ∧
    (Retrieve NewJournalReader noMessageResponses).2.1.cursor ≠
      NewJournalReader.cursor :=
  ⟨rfl, by decide, by decide⟩

/-- C1 (amended): when the entry's `MESSAGE` field is absent (and the
call got past the cap check, the advance and the entry/cursor reads),
`Retrieve` fails with the MalformedEntry error, but the cursor token has
already been captured into `cursor` and `retrieved` has already been
incremented — the state update happens before the message lookup, not
only on successful extraction. -/
theorem C1_malformed_entry_state (j : JournalReader) (r : RetrieveResponses)
    (n : Nat) (log : JournalEntry) (c : String)
    (hguard : ¬(j.limit > 0 ∧ j.retrieved ≥ j.limit))
    (hn : r.next = .ok n) (hn0 : n ≠ 0)
    (hlog : r.getEntry = .ok log) (hc : r.getCursor = .ok c)
    (hmsg : log.fields.lookup "MESSAGE" = none) :
    Retrieve j r = (.error "entry has no MESSAGE field",
      { j with cursor := c, retrieved := j.retrieved + 1 },
      [.next, .getEntry, .getCursor]) := by
  unfold Retrieve
  rw [if_neg hguard]
  simp only [hn, if_neg hn0, hlog, hc, hmsg]

/-- C1 amended witness: the concrete `MESSAGE`-less entry on a fresh
reader. -/
theorem C1_malformed_entry_state_witness :
    ¬(NewJournalReader.limit > 0 ∧
        NewJournalReader.retrieved ≥ NewJournalReader.limit) ∧
    noMessageResponses.next = .ok 1 ∧
    noMessageResponses.getEntry = .ok ⟨[("FOO", "bar")]⟩ ∧
    noMessageResponses.getCursor = .ok "c1" ∧
    (⟨[("FOO", "bar")]⟩ : JournalEntry).fields.lookup "MESSAGE" = none ∧
    Retrieve NewJournalReader noMessageResponses =
      (.error "entry has no MESSAGE field",
        { NewJournalReader with
          cursor := "c1",
          retrieved := NewJournalReader.retrieved + 1 },
        [.next, .getEntry, .getCursor]) :=
  ⟨by decide, rfl, rfl, rfl, by decide,
    C1_malformed_entry_state NewJournalReader noMessageResponses 1
      ⟨[("FOO", "bar")]⟩ "c1" (by decide) rfl (by decide) rfl rfl (by decide)⟩

/-- C3 counterexample: the state reached from a fresh reader by two
successful unbounded retrievals followed by `SetLimit(1)` has
`limit = 1 > 0` but `retrieved = 2 > limit`: `SetLimit` does not
re-check the already-retrieved count, so the invariant is not preserved
by every operation sequence. -/
theorem C3_counterexample :
    (run NewJournalReader
        [.retrieve okResponses, .retrieve okResponses, .setLimit 1]).limit > 0 ∧
    ¬((run NewJournalReader
        [.retrieve okResponses, .retrieve okResponses, .setLimit 1]).retrieved ≤
      (run NewJournalReader
        [.retrieve okResponses, .retrieve okResponses, .setLimit 1]).limit) := by
  decide

/-- The cap invariant: counters are non-negative and a positive limit
bounds the retrieved count. -/
def CapInvariant (j : JournalReader) : Prop :=
  0 ≤ j.retrieved ∧ 0 ≤ j.limit ∧ (0 < j.limit → j.retrieved ≤ j.limit)

/-- A trace is limit-disciplined when every `SetLimit(n)` in it either
requests an unbounded reader (`n ≤ 0`) or a cap at least as large as the
count already retrieved at that point. -/
def goodLimits : JournalReader → List ROp → Bool
  | _, [] => true
  | j, op :: ops =>
    (match op with
     | .setLimit n => decide (n ≤ 0 ∨ j.retrieved ≤ n)
     | _ => true) && goodLimits (step j op) ops

/-- Every single operation preserves the cap invariant, provided a
`SetLimit` is limit-disciplined at that state. -/
theorem step_capInvariant (j : JournalReader) (op : ROp)
    (hInv : CapInvariant j)
    (hop : ∀ n, op = ROp.setLimit n → n ≤ 0 ∨ j.retrieved ≤ n) :
    CapInvariant (step j op) := by
  obtain ⟨hr, hl, hb⟩ := hInv
  cases op with
  | setLimit n =>
    have hn := hop n rfl
    simp only [step, SetLimit]
    split
    · exact ⟨hr, le_refl 0, fun h => absurd h (lt_irrefl 0)⟩
    · next hlt =>
      refine ⟨hr, show (0 : Int) ≤ n by omega, fun hpos => ?_⟩
      have hpos' : (0 : Int) < n := hpos
      show j.retrieved ≤ n
      omega
  | retrieve r =>
    rcases Retrieve_state_cases j r with h | ⟨hg, c, h⟩
    · simp only [step]; rw [h]; exact ⟨hr, hl, hb⟩
    · simp only [step]; rw [h]
      refine ⟨show (0 : Int) ≤ j.retrieved + 1 by omega, hl, fun hpos => ?_⟩
      have hpos' : (0 : Int) < j.limit := hpos
      have hlt : j.retrieved < j.limit := by
        by_contra hge
        exact hg ⟨hpos', by omega⟩
      show j.retrieved + 1 ≤ j.limit
      omega
  | resetCounter => exact ⟨le_refl 0, hl, fun _ => hl⟩
  | seekHead res =>
    cases res with
    | error e => exact ⟨hr, hl, hb⟩
    | ok u => exact ⟨le_refl 0, hl, fun _ => hl⟩
  | seekTail res =>
    cases res with
    | error e => exact ⟨hr, hl, hb⟩
    | ok u => exact ⟨le_refl 0, hl, fun _ => hl⟩
  | seekCursor tok res =>
    cases res with
    | error e => exact ⟨hr, hl, hb⟩
    | ok u => exact ⟨le_refl 0, hl, fun _ => hl⟩
  | _ => exact ⟨hr, hl, hb⟩

/-- The cap invariant holds along every limit-disciplined trace. -/
theorem run_capInvariant (ops : List ROp) :
    ∀ j, CapInvariant j → goodLimits j ops = true → CapInvariant (run j ops) := by
  induction ops with
  | nil => intro j h _; exact h
  | cons op ops ih =>
    intro j hInv hg
    unfold goodLimits at hg
    rw [Bool.and_eq_true] at hg
    refine ih (step j op) (step_capInvariant j op hInv ?_) hg.2
    intro n hn
    subst hn
    exact of_decide_eq_true hg.1

/-- C3 (amended): in every state reachable from a fresh reader by a
sequence of filter, `SetLimit`, seek, `ResetCounter` and `Retrieve`
operations in which each `SetLimit(n)` call has `n ≤ 0` or `n` at least
the count retrieved at that point, `limit > 0` implies
`retrieved ≤ limit`.  (Without that proviso `SetLimit` can drop the
limit below the current count — see the counterexample.) -/
theorem C3_cap_invariant (ops : List ROp)
    (h : goodLimits NewJournalReader ops = true)
    (hpos : 0 < (run NewJournalReader ops).limit) :
    (run NewJournalReader ops).retrieved ≤ (run NewJournalReader ops).limit :=
  (run_capInvariant ops NewJournalReader ⟨le_refl 0, le_refl 0, by decide⟩ h).2.2 hpos

/-- C3 amended witness: one successful retrieval then `SetLimit(5)` is
limit-disciplined, leaves a positive limit, and satisfies the bound. -/
theorem C3_cap_invariant_witness :
    goodLimits NewJournalReader [.retrieve okResponses, .setLimit 5] = true ∧
    0 < (run NewJournalReader [.retrieve okResponses, .setLimit 5]).limit ∧
    (run NewJournalReader [.retrieve okResponses, .setLimit 5]).retrieved ≤
      (run NewJournalReader [.retrieve okResponses, .setLimit 5]).limit :=
  ⟨by decide, by decide,
    C3_cap_invariant [.retrieve okResponses, .setLimit 5] (by decide) (by decide)⟩

end Jourlog
